import Mathlib

/-!
Verification development for the Naukri job-search pipeline
(phase3_ai_analysis.py, phase4_tailoring.py, phase5_rescore.py,
main_workflow_naukri.py).

The Python sources are shallowly embedded: scores are rationals
(pd.NA modelled by Option), pandas rows become structures, and the
external effects (Gemini API, WeasyPrint rendering, PyPDF2 page
counting, the filesystem) are abstracted into explicit environment
values that record, per call, what the external world returned.
-/

/-! ### Status flags (CONFIG_STATUS_NAUKRI in main_workflow_naukri.py) -/

/-- Status flag `SUCCESS` from CONFIG_STATUS_NAUKRI. -/
def STATUS_SUCCESS : String := "Tailored Resume Created"

/-- Status flag `NEEDS_EDIT` from CONFIG_STATUS_NAUKRI. -/
def STATUS_NEEDS_EDIT : String := "Tailored Needs Manual Edit"

/-- Status flag `IMPROVED` from CONFIG_STATUS_NAUKRI. -/
def STATUS_IMPROVED : String := "Rescored - Improved"

/-- Status flag `MAINTAINED` from CONFIG_STATUS_NAUKRI. -/
def STATUS_MAINTAINED : String := "Rescored - Maintained"

/-- Status flag `DECLINED` from CONFIG_STATUS_NAUKRI. -/
def STATUS_DECLINED : String := "Rescored - Declined"

/-- Status flag `NEEDS_RETAILORING` from CONFIG_STATUS_NAUKRI. -/
def STATUS_NEEDS_RETAILORING : String := "Needs Re-Tailoring"

/-- Status flag `FAILED_TAILORING` from CONFIG_STATUS_NAUKRI. -/
def STATUS_FAILED_TAILORING : String := "Error - AI Tailoring"

/-- Status flag `FAILED_HTML_EDIT` from CONFIG_STATUS_NAUKRI. -/
def STATUS_FAILED_HTML_EDIT : String := "Error - HTML Edit"

/-- Status flag `FAILED_PDF_GEN` from CONFIG_STATUS_NAUKRI. -/
def STATUS_FAILED_PDF_GEN : String := "Error - PDF Generation"

/-- Status flag `FAILED_FILE_ACCESS` from CONFIG_STATUS_NAUKRI. -/
def STATUS_FAILED_FILE_ACCESS : String := "Error - File Access"

/-- Status flag `UNKNOWN_ERROR` from CONFIG_STATUS_NAUKRI. -/
def STATUS_UNKNOWN_ERROR : String := "Error - Unknown"

/-- Status flag `AI_ANALYZED` from CONFIG_STATUS_NAUKRI. -/
def STATUS_AI_ANALYZED : String := "AI Analyzed"

/-- Status flag `SKIPPED_LOW_SCORE` from CONFIG_STATUS_NAUKRI. -/
def STATUS_SKIPPED_LOW_SCORE : String := "Skipped - Low AI Score"

/-- Status flag `Error - Max Retailoring` from CONFIG_STATUS_NAUKRI. -/
def STATUS_MAX_RETAILORING : String := "Error - Max Re-Tailoring Attempts"

/-! ### Phase 5: effectiveness classification (process_rescoring, lines 135-140) -/

/-- Effectiveness classification branch of `process_rescoring`
(phase5_rescore.py lines 136-140).  `effectiveness_status` is initialised
to the Declined status constant (line 137) and then unconditionally
overwritten: if the tailored total is at/above the threshold the status
becomes Improved when `score_change > 0` and Maintained otherwise; below
the threshold it becomes NeedsRetailoring.  Inputs are the two numeric
totals (both established `pd.notna` by the guard on line 135) and the
configured `score_threshold`. -/
def classify_effectiveness (tailored_total_score original_total_score score_threshold : ℚ) :
    String :=
  let effectiveness_status := STATUS_DECLINED
  let score_change := tailored_total_score - original_total_score
  if score_threshold ≤ tailored_total_score then
    if 0 < score_change then STATUS_IMPROVED else STATUS_MAINTAINED
  else STATUS_NEEDS_RETAILORING

/-- C1 counterexample: with original total 2.0 and threshold 2.5, a new
total of exactly 2.5 is classified Improved by the code (2.5 is at the
threshold and strictly above the original), not Maintained as the claim
states. -/
theorem c1_tie_example_refuted :
    classify_effectiveness (5 / 2) 2 (5 / 2) = STATUS_IMPROVED
    ∧ classify_effectiveness (5 / 2) 2 (5 / 2) ≠ STATUS_MAINTAINED := by
  have h : classify_effectiveness (5 / 2) 2 (5 / 2) = STATUS_IMPROVED := by
    norm_num [classify_effectiveness]
  exact ⟨h, by rw [h]; decide⟩

/-- C1 (amended): the classifier yields NeedsRetailoring exactly when the
tailored total is strictly below the threshold; otherwise Improved when the
tailored total strictly exceeds the original and Maintained when the change
is zero or negative.  With original total 2.0 and threshold 2.5: new total
3.0 yields Improved, new total exactly 2.5 also yields Improved, and new
total 2.0 yields NeedsRetailoring. -/
theorem c1_effectiveness_classification (t o th : ℚ) :
    (t < th → classify_effectiveness t o th = STATUS_NEEDS_RETAILORING)
    ∧ (th ≤ t → o < t → classify_effectiveness t o th = STATUS_IMPROVED)
    ∧ (th ≤ t → t ≤ o → classify_effectiveness t o th = STATUS_MAINTAINED)
    ∧ classify_effectiveness 3 2 (5 / 2) = STATUS_IMPROVED
    ∧ classify_effectiveness (5 / 2) 2 (5 / 2) = STATUS_IMPROVED
    ∧ classify_effectiveness 2 2 (5 / 2) = STATUS_NEEDS_RETAILORING := by
  refine ⟨?_, ?_, ?_, ?_, ?_, ?_⟩
  · intro h
    simp only [classify_effectiveness]
    rw [if_neg (by linarith)]
  · intro h1 h2
    simp only [classify_effectiveness]
    rw [if_pos h1, if_pos (by linarith)]
  · intro h1 h2
    simp only [classify_effectiveness]
    rw [if_pos h1, if_neg (by linarith)]
  · norm_num [classify_effectiveness]
  · norm_num [classify_effectiveness]
  · norm_num [classify_effectiveness]

/-- C1 witness: the amended classification rule instantiated at concrete
inputs (tailored 2.4 below threshold 2.5; tailored 3.0 above both). -/
theorem c1_effectiveness_classification_witness :
    classify_effectiveness (12 / 5) 2 (5 / 2) = STATUS_NEEDS_RETAILORING
    ∧ classify_effectiveness 3 2 (5 / 2) = STATUS_IMPROVED := by
  exact ⟨(c1_effectiveness_classification (12 / 5) 2 (5 / 2)).1 (by norm_num),
    ((c1_effectiveness_classification 3 2 (5 / 2)).2).1 (by norm_num) (by norm_num)⟩

/-- C2: the score-comparison branch never ends in the Declined status:
every run produces Improved, Maintained or NeedsRetailoring, even though
the Declined constant initialises the classification variable. -/
theorem c2_declined_unreachable (t o th : ℚ) :
    (classify_effectiveness t o th = STATUS_IMPROVED
      ∨ classify_effectiveness t o th = STATUS_MAINTAINED
      ∨ classify_effectiveness t o th = STATUS_NEEDS_RETAILORING)
    ∧ classify_effectiveness t o th ≠ STATUS_DECLINED := by
  simp only [classify_effectiveness]
  split_ifs with h1 h2
  · exact ⟨Or.inl rfl, by decide⟩
  · exact ⟨Or.inr (Or.inl rfl), by decide⟩
  · exact ⟨Or.inr (Or.inr rfl), by decide⟩

/-! ### Phase 5 / Phase 3: total score (calculate_total_score, phase5_rescore.py lines 68-75;
the same four-component sum is computed inline in process_ai_analysis,
phase3_ai_analysis.py lines 415-417) -/

/-- Relevant fields of the `analysis_results` dictionary produced by
`analyze_resume_fit_with_gemini`.  Each component score is `pd.NA` (here
`none`) when the Oracle's breakdown line for it could not be parsed;
`error` is `None` (here `none`) on success and a non-empty message on
failure.  The dictionary shape itself is enforced by typing. -/
structure AnalysisScores where
  error : Option String
  keyword_match_score : Option ℚ
  achievements_score : Option ℚ
  summary_quality_score : Option ℚ
  structure_score : Option ℚ
  tools_certs_score : Option ℚ
deriving DecidableEq

/-- The function `calculate_total_score` (phase5_rescore.py lines 68-75):
sums the keyword, achievements, summary-quality and tools/certs components
(the structure score is not in `scores_to_sum`), skipping non-numeric
entries, and returns `pd.NA` when no component is numeric or when the
results dictionary carries a truthy error. -/
def calculate_total_score (analysis_results : AnalysisScores) : Option ℚ :=
  if analysis_results.error.getD "" ≠ "" then none
  else
    let scores_to_sum := [analysis_results.keyword_match_score,
      analysis_results.achievements_score, analysis_results.summary_quality_score,
      analysis_results.tools_certs_score]
    let valid_scores := scores_to_sum.filterMap id
    if valid_scores = [] then none else some valid_scores.sum

/-- C8: the derived total equals the sum of the four components
keyword/achievements/summary-quality/tools-certs (a missing component
contributes nothing), the structure score is excluded (changing it never
changes the total), and the total is absent exactly when none of the four
components is numeric. -/
theorem c8_total_is_four_component_sum (r : AnalysisScores) (herr : r.error.getD "" = "") :
    (calculate_total_score r =
      if r.keyword_match_score = none ∧ r.achievements_score = none
          ∧ r.summary_quality_score = none ∧ r.tools_certs_score = none then none
      else some (r.keyword_match_score.getD 0 + r.achievements_score.getD 0
        + r.summary_quality_score.getD 0 + r.tools_certs_score.getD 0))
    ∧ ∀ v : Option ℚ,
        calculate_total_score { r with structure_score := v } = calculate_total_score r := by
  constructor
  · rcases hk : r.keyword_match_score with _ | k <;>
      rcases ha : r.achievements_score with _ | a <;>
        rcases hs : r.summary_quality_score with _ | s <;>
          rcases ht : r.tools_certs_score with _ | t <;>
            simp [calculate_total_score, herr, hk, ha, hs, ht] <;> ring
  · intro v
    simp [calculate_total_score, herr]

/-- C8 witness: with keyword score 3/4 and tools/certs score 1/2 present
(and the other two components unparsed), the total is 5/4; it ignores the
structure score. -/
theorem c8_total_is_four_component_sum_witness :
    calculate_total_score ⟨none, some (3 / 4), none, none, some 1, some (1 / 2)⟩
      = some (5 / 4)
    ∧ calculate_total_score ⟨none, some (3 / 4), none, none, none, some (1 / 2)⟩
      = calculate_total_score ⟨none, some (3 / 4), none, none, some 1, some (1 / 2)⟩ := by
  have h := c8_total_is_four_component_sum
    ⟨none, some (3 / 4), none, none, some 1, some (1 / 2)⟩ rfl
  constructor
  · rw [h.1, if_neg (by simp)]
    norm_num
  · exact (h.2 none).symm

/-! ### String helpers (Python `in`, `str.startswith`, slicing) -/

/-- Python list/str prefix test: `charsLeading p l` is true when `p` is a
leading segment of `l`. -/
def charsLeading : List Char → List Char → Bool
  | [], _ => true
  | _ :: _, [] => false
  | a :: as, b :: bs => a == b && charsLeading as bs

/-- Python substring test on char lists: `needle in hay`. -/
def charsContains (needle : List Char) : List Char → Bool
  | [] => needle.isEmpty
  | c :: rest => charsLeading needle (c :: rest) || charsContains needle rest

/-- Python `needle in hay` on strings. -/
def strContains (needle hay : String) : Bool :=
  charsContains needle.data hay.data

/-- Python `hay.startswith(needle)` on strings. -/
def strStarts (hay needle : String) : Bool :=
  charsLeading needle.data hay.data

/-- Python slicing `s[:n]` (by code point, like Python). -/
def strSlice (s : String) (n : Nat) : String :=
  String.mk (s.data.take n)

/-! ### AI Oracle Client (call_gemini_api, phase3_ai_analysis.py lines 142-178) -/

/-- A value of the `skill_categories` mapping: the code accepts a list of
skill strings, a comma-separated string, or anything else (skipped). -/
inductive SkillsData where
  | ofList (skills : List String)
  | ofString (s : String)
  | other
deriving DecidableEq

/-- A parsed JSON object from the tailoring Oracle, with each of the four
required keys either present (with its typed value) or absent. -/
structure OracleDict where
  tailored_summary : Option String
  relevant_experience_title : Option String
  tailored_bullets : Option (List String)
  skill_categories : Option (List (String × SkillsData))
deriving DecidableEq

/-- Outcome of one `model.generate_content` round trip that did NOT raise:
everything the try-block of `call_gemini_api` can observe (prompt feedback,
candidates, finish reason, response text and how it parses as JSON). -/
inductive TryOutcome where
  | promptBlocked (blockReasonName : String)
  | noCandidates
  | abnormalFinish (finishReasonName : String) (partText : Option String)
  | noTextContent (finishReasonName : String)
  | emptyJson
  | jsonMalformed (raw : String)
  | jsonNotObject (raw : String)
  | jsonObject (d : OracleDict) (hasErrorKey : Bool)
  | textBody (s : String)
deriving DecidableEq

/-- One external call event: the call either completed (with a
`TryOutcome`) or raised an exception carrying a message and a type name. -/
inductive CallEvent where
  | ok (outcome : TryOutcome)
  | exn (msg typeName : String)
deriving DecidableEq

/-- Return value of `call_gemini_api`: a JSON-mode error dictionary (an
`{"error": ...}` mapping, optionally with partial/raw text), a parsed JSON
object (which may itself contain an `error` key), or a plain string (text
mode, success or error text). -/
inductive GeminiRet where
  | errorObj (msg : String) (partText : Option String) (raw : Option String)
  | jsonObj (d : OracleDict) (hasErrorKey : Bool)
  | textRet (s : String)
deriving DecidableEq

/-- Rate-limit / server-busy test of phase3_ai_analysis.py line 174:
`"Resource has been exhausted" in str(e) or "429" in str(e) or "503" in str(e)`. -/
def is_retryable_error (msg : String) : Bool :=
  strContains "Resource has been exhausted" msg || strContains "429" msg
    || strContains "503" msg

/-- Invalid-API-key test of phase3_ai_analysis.py line 177:
`"API key not valid" in str(e)`. -/
def is_invalid_key_error (msg : String) : Bool :=
  strContains "API key not valid" msg

/-- Result mapping of the try-block of `call_gemini_api` (lines 147-171):
every branch returns immediately (no retry happens inside the try-block). -/
def tryOutcomeResult (is_json_output : Bool) : TryOutcome → GeminiRet
  | .promptBlocked r =>
      let err := "ERROR: Prompt blocked (" ++ r ++ ")"
      if is_json_output then .errorObj err none none else .textRet err
  | .noCandidates =>
      let err := "ERROR: No response candidates"
      if is_json_output then .errorObj err none none else .textRet err
  | .abnormalFinish r p =>
      let err := if r = "MAX_TOKENS" then "ERROR: Output truncated (" ++ r ++ ")."
        else "ERROR: Response stopped unexpectedly (" ++ r ++ ")"
      if is_json_output then .errorObj err p none
      else .textRet (err ++ (match p with | some t => "\nPartial Text:\n" ++ t | none => ""))
  | .noTextContent r =>
      let err := "ERROR: No text content (Finish Reason: " ++ r ++ ")"
      if is_json_output then .errorObj err none none else .textRet err
  | .emptyJson => .errorObj "Empty JSON response" none none
  | .jsonMalformed raw => .errorObj "Failed to parse JSON" none (some raw)
  | .jsonNotObject raw => .errorObj "Parsed response is not JSON object" none (some raw)
  | .jsonObject d hasErrorKey => .jsonObj d hasErrorKey
  | .textBody s => .textRet s

/-- Result for an exception that is not retried (lines 177-178). -/
def exnResult (is_json_output : Bool) (msg typeName : String) : GeminiRet :=
  let err := if is_invalid_key_error msg then "ERROR: Invalid Gemini API Key."
    else "ERROR: API Call Failed - " ++ typeName
  if is_json_output then .errorObj err none none else .textRet err

/-- Trace of one `call_gemini_api` invocation: final return value, the
back-off waits slept before each retry, and how many external calls were
made. -/
structure CallTrace where
  result : GeminiRet
  waits : List ℚ
  calls : Nat
deriving DecidableEq

/-- Recursive core of `call_gemini_api` (lines 142-178).  `gas` is
`max_attempts - attempt`: the retry branch (line 174-176) fires only when
the exception message is a rate-limit/server-busy one AND
`attempt < max_attempts`, sleeping `api_delay * 1.5 ** attempt` plus the
jitter drawn from `random.uniform(0, 1)` before recursing with
`attempt + 1`. -/
def call_gemini_go (events : Nat → CallEvent) (jitter : Nat → ℚ) (api_delay : ℚ)
    (is_json_output : Bool) : Nat → Nat → CallTrace
  | attempt, 0 =>
    match events attempt with
    | .ok o => ⟨tryOutcomeResult is_json_output o, [], 1⟩
    | .exn msg ty => ⟨exnResult is_json_output msg ty, [], 1⟩
  | attempt, gas + 1 =>
    match events attempt with
    | .ok o => ⟨tryOutcomeResult is_json_output o, [], 1⟩
    | .exn msg ty =>
      if is_retryable_error msg then
        let wait := api_delay * (3 / 2) ^ attempt + jitter attempt
        let t := call_gemini_go events jitter api_delay is_json_output (attempt + 1) gas
        ⟨t.result, wait :: t.waits, t.calls + 1⟩
      else ⟨exnResult is_json_output msg ty, [], 1⟩

/-- The function `call_gemini_api` with its `attempt`/`max_attempts`
parameters (defaults `attempt=1`, `max_attempts=3`). -/
def call_gemini_api (events : Nat → CallEvent) (jitter : Nat → ℚ) (api_delay : ℚ)
    (is_json_output : Bool) (attempt max_attempts : Nat) : CallTrace :=
  call_gemini_go events jitter api_delay is_json_output attempt (max_attempts - attempt)

/-- C7: the Oracle client retries only on rate-limit/server-busy
exceptions, waiting `api_delay * 1.5 ^ attempt` plus the drawn jitter
before each retry; every completed call (content block, empty candidates,
abnormal finish, malformed JSON, ...) and every non-retryable exception
(e.g. invalid API key) returns immediately after exactly one call; the
total number of calls is bounded by the attempt ceiling (3 under the
default `attempt = 1`, `max_attempts = 3`). -/
theorem c7_retry_policy (events : Nat → CallEvent) (jitter : Nat → ℚ) (api_delay : ℚ)
    (is_json_output : Bool) :
    (∀ a g o, events a = .ok o →
        call_gemini_go events jitter api_delay is_json_output a g
          = ⟨tryOutcomeResult is_json_output o, [], 1⟩)
    ∧ (∀ a g msg ty, events a = .exn msg ty → is_retryable_error msg = false →
        call_gemini_go events jitter api_delay is_json_output a g
          = ⟨exnResult is_json_output msg ty, [], 1⟩)
    ∧ (∀ a g msg ty, events a = .exn msg ty → is_retryable_error msg = true →
        call_gemini_go events jitter api_delay is_json_output a (g + 1)
          = ⟨(call_gemini_go events jitter api_delay is_json_output (a + 1) g).result,
              (api_delay * (3 / 2) ^ a + jitter a)
                :: (call_gemini_go events jitter api_delay is_json_output (a + 1) g).waits,
              (call_gemini_go events jitter api_delay is_json_output (a + 1) g).calls + 1⟩)
    ∧ (∀ a g, (call_gemini_go events jitter api_delay is_json_output a g).calls ≤ g + 1)
    ∧ (call_gemini_api events jitter api_delay is_json_output 1 3).calls ≤ 3 := by
  have hbound : ∀ g a, (call_gemini_go events jitter api_delay is_json_output a g).calls ≤ g + 1 := by
    intro g
    induction g with
    | zero =>
      intro a
      cases h : events a <;> simp [call_gemini_go, h]
    | succ g ih =>
      intro a
      cases h : events a with
      | ok o => simp [call_gemini_go, h]
      | exn msg ty =>
        by_cases hr : is_retryable_error msg
        · simp only [call_gemini_go, h, hr, if_true]
          have := ih (a + 1)
          omega
        · simp [call_gemini_go, h, hr]
  refine ⟨?_, ?_, ?_, fun a g => hbound g a, hbound 2 1⟩
  · intro a g o h
    cases g <;> simp [call_gemini_go, h]
  · intro a g msg ty h hr
    cases g <;> simp [call_gemini_go, h, hr]
  · intro a g msg ty h hr
    simp [call_gemini_go, h, hr]

/-- Concrete call events for the C7 witness: a rate-limited exception on
the first call, then a successful JSON object. -/
def c7wEvents : Nat → CallEvent := fun a =>
  if a = 1 then .exn "429 Resource has been exhausted (e.g. check quota)." "ResourceExhausted"
  else .ok (.jsonObject ⟨some "s", some "t", some [], some []⟩ false)

/-- C7 witness: starting at attempt 1 with ceiling 3 and base delay 2, the
rate-limited first call is retried after waiting `2 * 1.5 ^ 1` plus the
drawn jitter `1 / 10`, the second call's JSON object is returned, and
exactly 2 calls are made. -/
theorem c7_retry_policy_witness :
    call_gemini_api c7wEvents (fun _ => 1 / 10) 2 true 1 3
      = ⟨.jsonObj ⟨some "s", some "t", some [], some []⟩ false,
          [2 * (3 / 2) ^ 1 + 1 / 10], 2⟩ := by
  have h := c7_retry_policy c7wEvents (fun _ => 1 / 10) 2 true
  have h1 := h.2.2.1 1 1 "429 Resource has been exhausted (e.g. check quota)."
    "ResourceExhausted" rfl (by decide)
  have h2 := h.1 2 1 (.jsonObject ⟨some "s", some "t", some [], some []⟩ false) rfl
  show call_gemini_go c7wEvents (fun _ => 1 / 10) 2 true 1 2 = _
  rw [h1, h2]
  rfl

/-! ### Resume document and structural edit
(edit_html_with_ai_suggestions, phase4_tailoring.py lines 93-177) -/

/-- One experience block of the resume: the employer `h3` heading inside a
`div.clearfix`, followed by its sibling `ul` of bullet `li`s. -/
structure ExperienceEntry where
  heading : String
  bullets : List String
deriving DecidableEq

/-- One `div.skills-column` inside `div.skills-container`: an `h4`
category title and a `ul.skills-list` of skill `li`s. -/
structure SkillColumn where
  category : String
  skills : List String
deriving DecidableEq

/-- The base resume document as the tree the edit code traverses.  The
model assumes the section landmarks the code searches for (the Summary,
Experience, Skills and Education `h2` headings, the `div.section` /
`div.clearfix` / `div.skills-container` wrappers and the sibling `ul`s)
are present, as they are in the base resume template.
`education_lists` are the bullet `ul`s following the Education heading,
in document order. -/
structure ResumeDoc where
  summary : List String
  experience : List ExperienceEntry
  skills_columns : List SkillColumn
  education_lists : List (List String)
deriving DecidableEq

/-- Experience-bullet injection (lines 122-146): walk the `h3` headings
after the Experience `h2` in order, and at the FIRST heading whose text
contains the AI's `relevant_experience_title` case-insensitively, replace
that entry's bullet list with the non-empty tailored bullets, then stop
searching.  Returns the new entries and whether an injection happened. -/
def inject_experience_bullets (title : String) (bullets : List String) :
    List ExperienceEntry → List ExperienceEntry × Bool
  | [] => ([], false)
  | e :: rest =>
    if charsContains title.toLower.data e.heading.toLower.data then
      ({ e with bullets := bullets.filter (fun b => b ≠ "") } :: rest, true)
    else
      let r := inject_experience_bullets title bullets rest
      (e :: r.1, r.2)

/-- Value handling for one `skill_categories` entry (lines 158-163): a
list is used as-is; a string is split on commas, trimmed, with empties
dropped, falling back to the whole string when that produces at most one
part; any other type is skipped (`none`). -/
def parse_skills_value : SkillsData → Option (List String)
  | .ofList skills => some skills
  | .ofString s =>
    let parts := ((s.splitOn ",").map String.trim).filter (fun x => x ≠ "")
    some (if parts.length ≤ 1 ∧ s ≠ "" then [s] else parts)
  | .other => none

/-- Skills-section rebuild (lines 156-171): the container is cleared and
one column is appended per category whose parsed skill list is non-empty,
with empty skill strings skipped inside each column. -/
def rebuild_skills_columns (skills_dict : List (String × SkillsData)) : List SkillColumn :=
  skills_dict.filterMap fun cs =>
    match parse_skills_value cs.2 with
    | none => none
    | some skills_list =>
      if skills_list = [] then none
      else some ⟨cs.1, skills_list.filter (fun s => s ≠ "")⟩

/-- The `ai_json_data` argument of `edit_html_with_ai_suggestions`: either
not a mapping at all (rejected by the `isinstance` guard on line 96) or a
parsed JSON object. -/
inductive AiJsonData where
  | notDict
  | dict (d : OracleDict)
deriving DecidableEq

/-- Body of the try-block of `edit_html_with_ai_suggestions` (lines
97-176): (1) if a non-empty tailored summary is given, the summary section
is cleared down to its `h2` and the new summary paragraph appended; (2) if
a non-empty target title and non-empty bullet list are given, the bullets
of the first case-insensitively matching experience entry are replaced;
(3) if the skill-category map is non-empty, the skills container is
rebuilt from it.  The returned flag records whether any change was
applied. -/
def edit_html_apply (base : ResumeDoc) (ai_json_data : OracleDict) : ResumeDoc × Bool :=
  let tailored_summary := ai_json_data.tailored_summary.getD ""
  let relevant_experience_title := (ai_json_data.relevant_experience_title.getD "").trim
  let tailored_bullets := ai_json_data.tailored_bullets.getD []
  let skills_dict := ai_json_data.skill_categories.getD []
  let step1 : ResumeDoc × Bool :=
    if tailored_summary ≠ "" then ({ base with summary := [tailored_summary] }, true)
    else (base, false)
  let step2 : ResumeDoc × Bool :=
    if relevant_experience_title ≠ "" ∧ tailored_bullets ≠ [] then
      let r := inject_experience_bullets relevant_experience_title tailored_bullets
        step1.1.experience
      ({ step1.1 with experience := r.1 }, step1.2 || r.2)
    else step1
  if skills_dict ≠ [] then
    ({ step2.1 with skills_columns := rebuild_skills_columns skills_dict }, true)
  else step2

/-- The function `edit_html_with_ai_suggestions` (lines 93-177): the
`isinstance` guard returns the base content unchanged with `False`; any
exception raised while applying the edit is caught on line 177 and the
ORIGINAL `base_html_content` string is returned with `False`
(`exc_raised` records whether such an exception occurred). -/
def edit_html_with_ai_suggestions (base_html_content : ResumeDoc) (ai_json_data : AiJsonData)
    (exc_raised : Bool) : ResumeDoc × Bool :=
  match ai_json_data with
  | .notDict => (base_html_content, false)
  | .dict d => if exc_raised then (base_html_content, false) else edit_html_apply base_html_content d

/-- C6: an edit whose only non-empty content is the skill-category map
(empty tailored summary, empty bullet list) leaves the summary section and
the experience bullet lists of the output identical to the pre-edit
document. -/
theorem c6_skills_only_edit_preserves_summary_and_experience
    (base : ResumeDoc) (d : OracleDict)
    (hs : d.tailored_summary.getD "" = "")
    (hb : d.tailored_bullets.getD [] = []) :
    (edit_html_with_ai_suggestions base (.dict d) false).1.summary = base.summary
    ∧ (edit_html_with_ai_suggestions base (.dict d) false).1.experience = base.experience := by
  simp only [edit_html_with_ai_suggestions, if_neg, Bool.false_eq_true, ite_false]
  simp only [edit_html_apply, hs, hb, ne_eq, not_true_eq_false, ite_false, and_false,
    not_false_eq_true]
  split_ifs <;> simp

/-- C6 witness: a skills-only edit on a concrete two-entry resume leaves
summary and experience untouched. -/
theorem c6_skills_only_edit_witness :
    (edit_html_with_ai_suggestions
        ⟨["Base summary."], [⟨"Yardi Software Pvt Ltd", ["did x"]⟩, ⟨"Acme", ["did y"]⟩],
          [⟨"Old", ["VB"]⟩], [["B.E."]]⟩
        (.dict ⟨some "", some "Yardi", some [], some [("Cloud", .ofList ["AWS"])]⟩)
        false).1.summary = ["Base summary."]
    ∧ (edit_html_with_ai_suggestions
        ⟨["Base summary."], [⟨"Yardi Software Pvt Ltd", ["did x"]⟩, ⟨"Acme", ["did y"]⟩],
          [⟨"Old", ["VB"]⟩], [["B.E."]]⟩
        (.dict ⟨some "", some "Yardi", some [], some [("Cloud", .ofList ["AWS"])]⟩)
        false).1.experience
      = [⟨"Yardi Software Pvt Ltd", ["did x"]⟩, ⟨"Acme", ["did y"]⟩] := by
  exact c6_skills_only_edit_preserves_summary_and_experience
    ⟨["Base summary."], [⟨"Yardi Software Pvt Ltd", ["did x"]⟩, ⟨"Acme", ["did y"]⟩],
      [⟨"Old", ["VB"]⟩], [["B.E."]]⟩
    ⟨some "", some "Yardi", some [], some [("Cloud", .ofList ["AWS"])]⟩ rfl rfl

/-- C10: applying a structured edit is atomic on error: when the AI data
is not a mapping, or an exception is raised while applying it, the result
is exactly the input document with a `False` modified flag. -/
theorem c10_edit_atomic_on_error (base : ResumeDoc) (ai : AiJsonData) (exc : Bool)
    (h : ai = AiJsonData.notDict ∨ exc = true) :
    edit_html_with_ai_suggestions base ai exc = (base, false) := by
  rcases h with h | h
  · subst h
    rfl
  · subst h
    cases ai <;> simp [edit_html_with_ai_suggestions]

/-- C10 witness: a raised exception returns the concrete base document
unchanged with `False`, and so does non-mapping AI data. -/
theorem c10_edit_atomic_on_error_witness :
    edit_html_with_ai_suggestions ⟨["s"], [⟨"Yardi", ["b"]⟩], [], [["e"]]⟩
        (.dict ⟨some "New", some "Yardi", some ["nb"], some []⟩) true
      = (⟨["s"], [⟨"Yardi", ["b"]⟩], [], [["e"]]⟩, false)
    ∧ edit_html_with_ai_suggestions ⟨["s"], [⟨"Yardi", ["b"]⟩], [], [["e"]]⟩
        AiJsonData.notDict false
      = (⟨["s"], [⟨"Yardi", ["b"]⟩], [], [["e"]]⟩, false) := by
  exact ⟨c10_edit_atomic_on_error _ _ _ (Or.inr rfl),
    c10_edit_atomic_on_error _ _ _ (Or.inl rfl)⟩

/-! ### Tailoring Engine loop
(iterative_tailoring_and_pdf_gen, phase4_tailoring.py lines 181-296) -/

/-- Environment of one attempt of the tailoring loop: what the Oracle call
returned for that attempt's prompt, whether writing the edited HTML file
succeeded, whether `generate_pdf_from_html` succeeded, and the page count
`get_pdf_page_count` would report for the generated PDF (negative sentinels
`-1`/`-2` for a missing/unreadable file). -/
structure AttemptEnv where
  oracle : GeminiRet
  html_save_ok : Bool
  pdf_gen_ok : Bool
  page_count : Int
deriving DecidableEq

/-- The `missing_keys` computation of lines 261-262: the required keys, in
order, that are absent from the parsed response. -/
def missing_keys (d : OracleDict) : List String :=
  (if d.tailored_summary.isNone then ["tailored_summary"] else [])
  ++ (if d.relevant_experience_title.isNone then ["relevant_experience_title"] else [])
  ++ (if d.tailored_bullets.isNone then ["tailored_bullets"] else [])
  ++ (if d.skill_categories.isNone then ["skill_categories"] else [])

/-- Failure status of line 259 (with its `[:250]` truncation). -/
def api_err_status (attempt : Nat) : String :=
  strSlice (STATUS_FAILED_TAILORING ++ " (API Err Att." ++ toString attempt ++ ")") 250

/-- Failure status of line 260. -/
def invalid_resp_status (attempt : Nat) : String :=
  STATUS_FAILED_TAILORING ++ " (Invalid Resp Att." ++ toString attempt ++ ")"

/-- Failure status of line 263. -/
def missing_keys_status (attempt : Nat) : String :=
  STATUS_FAILED_TAILORING ++ " (Missing Keys Att." ++ toString attempt ++ ")"

/-- Failure status of line 269. -/
def html_save_err_status (attempt : Nat) : String :=
  STATUS_FAILED_FILE_ACCESS ++ " (HTML Save Err Att." ++ toString attempt ++ ")"

/-- Failure status of line 271. -/
def pdf_gen_err_status (attempt : Nat) : String :=
  STATUS_FAILED_PDF_GEN ++ " (Att." ++ toString attempt ++ ")"

/-- Failure status of line 275. -/
def pdf_validation_err_status (attempt : Nat) : String :=
  STATUS_FAILED_PDF_GEN ++ " (Validation Err Att." ++ toString attempt ++ ")"

/-- Running state of the attempt loop: the `final_status` and `page_count`
locals of lines 183, whether `latest_ai_json_data` currently carries an
`error` key, and instrumentation counting Oracle calls and
`generate_pdf_from_html` calls. -/
structure LoopAcc where
  final_status : String
  latest_has_error : Bool
  page_count : Int
  oracle_calls : Nat
  render_calls : Nat
deriving DecidableEq

/-- Initial loop state (line 183): status `FAILED_TAILORING`,
`latest_ai_json_data = {"error": ...}`, `page_count = -1`. -/
def initLoopAcc : LoopAcc := ⟨STATUS_FAILED_TAILORING, true, -1, 0, 0⟩

/-- The `for attempt in range(1, max_attempts + 1)` loop of lines 193-276.
`gas` is the number of attempts still available.  Attempts ≥ 2 first check
`latest_ai_json_data` for an error and break (lines 234/246); then the
Oracle response is classified (error mapping / non-mapping / missing
required keys, lines 259-263); on success the edited HTML is written,
the PDF rendered and measured, succeeding at page count 1, continuing the
ladder above 1 page, and failing validation otherwise (lines 265-275). -/
def run_attempts (env : Nat → AttemptEnv) : Nat → Nat → LoopAcc → LoopAcc
  | _, 0, acc => acc
  | attempt, gas + 1, acc =>
    if 2 ≤ attempt ∧ acc.latest_has_error = true then acc
    else
      match (env attempt).oracle with
      | .errorObj _ _ _ =>
        { acc with
          final_status := api_err_status attempt
          latest_has_error := true
          oracle_calls := acc.oracle_calls + 1 }
      | .jsonObj _ true =>
        { acc with
          final_status := api_err_status attempt
          latest_has_error := true
          oracle_calls := acc.oracle_calls + 1 }
      | .textRet _ =>
        { acc with
          final_status := invalid_resp_status attempt
          latest_has_error := true
          oracle_calls := acc.oracle_calls + 1 }
      | .jsonObj d false =>
        if missing_keys d ≠ [] then
          { acc with
            final_status := missing_keys_status attempt
            latest_has_error := true
            oracle_calls := acc.oracle_calls + 1 }
        else if (env attempt).html_save_ok = false then
          { acc with
            final_status := html_save_err_status attempt
            latest_has_error := false
            oracle_calls := acc.oracle_calls + 1 }
        else if (env attempt).pdf_gen_ok = false then
          { acc with
            final_status := pdf_gen_err_status attempt
            latest_has_error := false
            oracle_calls := acc.oracle_calls + 1
            render_calls := acc.render_calls + 1 }
        else if (env attempt).page_count = 1 then
          { acc with
            final_status := STATUS_SUCCESS
            latest_has_error := false
            page_count := (env attempt).page_count
            oracle_calls := acc.oracle_calls + 1
            render_calls := acc.render_calls + 1 }
        else if 1 < (env attempt).page_count then
          run_attempts env (attempt + 1) gas
            { acc with
              final_status := STATUS_NEEDS_EDIT
              latest_has_error := false
              page_count := (env attempt).page_count
              oracle_calls := acc.oracle_calls + 1
              render_calls := acc.render_calls + 1 }
        else
          { acc with
            final_status := pdf_validation_err_status attempt
            latest_has_error := false
            page_count := (env attempt).page_count
            oracle_calls := acc.oracle_calls + 1
            render_calls := acc.render_calls + 1 }

/-- The education-bullet removal of lines 281-285: scan the `ul`s following
the Education `h2` in document order (`find_all_next('ul', limit=5)` caps
the scan at 5 lists), and at the FIRST list with at least one direct `li`,
remove its LAST `li` and stop.  Returns the new lists and whether a bullet
was removed. -/
def remove_last_edu_bullet : Nat → List (List String) → List (List String) × Bool
  | _, [] => ([], false)
  | 0, uls => (uls, false)
  | limit + 1, ul :: rest =>
    if ul ≠ [] then (ul.dropLast :: rest, true)
    else
      let r := remove_last_edu_bullet limit rest
      (ul :: r.1, r.2)

/-- Environment of the post-loop final edit (lines 277-295): whether the
Education heading is present in the current HTML, the education bullet
lists of that HTML, whether the try-block raised (line 295), and the
outcome of the single re-render. -/
structure FallbackEnv where
  edu_heading_found : Bool
  education_lists : List (List String)
  exc_raised : Bool
  pdf_gen_ok : Bool
  page_count : Int
deriving DecidableEq

/-- Observable outcome of one `iterative_tailoring_and_pdf_gen` run: the
returned status and page count, call counters, how many times the
post-loop final edit block ran and re-rendered, and the education bullet
lists of the HTML artifact afterwards. -/
structure TailoringResult where
  final_status : String
  page_count : Int
  oracle_calls : Nat
  render_calls : Nat
  fallback_runs : Nat
  fallback_renders : Nat
  edu_lists_after : List (List String)
deriving DecidableEq

/-- The removal step of the post-loop final edit (lines 281-285): nothing
is removed when the Education heading is absent; otherwise the last bullet
of the first non-empty education list (among the first five) is removed. -/
def final_edit_removal (fb : FallbackEnv) : List (List String) × Bool :=
  if fb.edu_heading_found then remove_last_edu_bullet 5 fb.education_lists
  else (fb.education_lists, false)

/-- The post-loop final edit (lines 277-295): entered only when the loop
left `final_status` equal to `NEEDS_EDIT`.  A raised exception yields
`FAILED_TAILORING (Final Edit Err)`.  Otherwise the removal of
`final_edit_removal` is applied; if a bullet was removed the document is
re-rendered once: page count 1 flips the status to `SUCCESS`, any other
count leaves the status as it was (`NEEDS_EDIT`), and a render failure
yields `FAILED_PDF_GEN (Final Edit)`.  If nothing was removed, no
re-render happens and the status stays as it was. -/
def apply_final_edit (fb : FallbackEnv) (acc : LoopAcc) : TailoringResult :=
  if acc.final_status = STATUS_NEEDS_EDIT then
    if fb.exc_raised then
      ⟨STATUS_FAILED_TAILORING ++ " (Final Edit Err)", acc.page_count, acc.oracle_calls,
        acc.render_calls, 1, 0, fb.education_lists⟩
    else
      if (final_edit_removal fb).2 then
        if fb.pdf_gen_ok then
          if fb.page_count = 1 then
            ⟨STATUS_SUCCESS, fb.page_count, acc.oracle_calls, acc.render_calls + 1, 1, 1,
              (final_edit_removal fb).1⟩
          else
            ⟨acc.final_status, fb.page_count, acc.oracle_calls, acc.render_calls + 1, 1, 1,
              (final_edit_removal fb).1⟩
        else
          ⟨STATUS_FAILED_PDF_GEN ++ " (Final Edit)", acc.page_count, acc.oracle_calls,
            acc.render_calls + 1, 1, 1, (final_edit_removal fb).1⟩
      else
        ⟨acc.final_status, acc.page_count, acc.oracle_calls, acc.render_calls, 1, 0,
          fb.education_lists⟩
  else ⟨acc.final_status, acc.page_count, acc.oracle_calls, acc.render_calls, 0, 0,
    fb.education_lists⟩

/-- The function `iterative_tailoring_and_pdf_gen` (lines 181-296): the
bounded attempt ladder followed by the post-loop final edit. -/
def iterative_tailoring_and_pdf_gen (env : Nat → AttemptEnv) (fb : FallbackEnv)
    (max_attempts : Nat) : TailoringResult :=
  apply_final_edit fb (run_attempts env 1 max_attempts initLoopAcc)

/-- C5: when attempt 1 returns a valid four-field object and its rendered
PDF measures exactly 1 page, the loop ends immediately in the Success
status with exactly one Oracle call and one render call, no condensation
attempt, and no post-loop fallback. -/
theorem c5_one_page_first_attempt_succeeds (env : Nat → AttemptEnv) (fb : FallbackEnv)
    (max_attempts : Nat) (d : OracleDict)
    (h1 : (env 1).oracle = .jsonObj d false)
    (h2 : missing_keys d = [])
    (h3 : (env 1).html_save_ok = true)
    (h4 : (env 1).pdf_gen_ok = true)
    (h5 : (env 1).page_count = 1)
    (h6 : 1 ≤ max_attempts) :
    iterative_tailoring_and_pdf_gen env fb max_attempts
      = ⟨STATUS_SUCCESS, 1, 1, 1, 0, 0, fb.education_lists⟩ := by
  obtain ⟨g, rfl⟩ : ∃ g, max_attempts = g + 1 := ⟨max_attempts - 1, by omega⟩
  unfold iterative_tailoring_and_pdf_gen
  have hloop : run_attempts env 1 (g + 1) initLoopAcc = ⟨STATUS_SUCCESS, false, 1, 1, 1⟩ := by
    simp only [run_attempts]
    rw [if_neg (by rintro ⟨hcontra, _⟩; omega)]
    simp [h1, h2, h3, h4, h5, initLoopAcc]
  rw [hloop]
  unfold apply_final_edit
  rw [if_neg (by decide)]

/-- Concrete attempt environment for the C5 witness: valid Oracle output,
successful save and render, page count 1. -/
def c5wEnv : Nat → AttemptEnv := fun _ =>
  ⟨.jsonObj ⟨some "S", some "Yardi", some ["b1"], some []⟩ false, true, true, 1⟩

/-- Concrete fallback environment for the C5 witness. -/
def c5wFb : FallbackEnv := ⟨true, [["e1", "e2"]], false, true, 1⟩

/-- C5 witness: with the ladder ceiling 3 and a first attempt that renders
to one page, the engine returns Success after exactly one Oracle call and
one render, leaving the education section untouched. -/
theorem c5_one_page_first_attempt_succeeds_witness :
    iterative_tailoring_and_pdf_gen c5wEnv c5wFb 3
      = ⟨STATUS_SUCCESS, 1, 1, 1, 0, 0, [["e1", "e2"]]⟩ :=
  c5_one_page_first_attempt_succeeds c5wEnv c5wFb 3
    ⟨some "S", some "Yardi", some ["b1"], some []⟩ rfl rfl rfl rfl rfl (by omega)

/-- Taking a positive number of characters preserves the head. -/
theorem take_head_of_pos (l : List Char) (n : Nat) (hn : n ≠ 0) :
    (l.take n).head? = l.head? := by
  cases l with
  | nil => simp
  | cons a t =>
    cases n with
    | zero => exact absurd rfl hn
    | succ m => simp

/-- Appending on the right preserves a known head character. -/
theorem append_head_left (s t : String) (c : Char) (h : s.data.head? = some c) :
    (s ++ t).data.head? = some c := by
  simp [List.head?_append, h]

/-- A string whose first character is `E` is not the `NEEDS_EDIT` status
(which starts with `T`). -/
theorem ne_needs_edit_of_head_E (s : String) (h : s.data.head? = some 'E') :
    s ≠ STATUS_NEEDS_EDIT := by
  intro he
  rw [he] at h
  exact absurd h (by decide)

/-- All three per-attempt Oracle-failure statuses start with `E`. -/
theorem oracle_failure_status_heads (a : Nat) :
    (api_err_status a).data.head? = some 'E'
    ∧ (invalid_resp_status a).data.head? = some 'E'
    ∧ (missing_keys_status a).data.head? = some 'E' := by
  have hF : STATUS_FAILED_TAILORING.data.head? = some 'E' := rfl
  refine ⟨?_, ?_, ?_⟩
  · show ((STATUS_FAILED_TAILORING ++ " (API Err Att." ++ toString a ++ ")").data.take 250).head?
      = some 'E'
    rw [take_head_of_pos _ _ (by norm_num)]
    exact append_head_left _ _ _ (append_head_left _ _ _ (append_head_left _ _ _ hF))
  · exact append_head_left _ _ _ (append_head_left _ _ _ (append_head_left _ _ _ hF))
  · exact append_head_left _ _ _ (append_head_left _ _ _ (append_head_left _ _ _ hF))

/-- Whether one attempt of the ladder continues to the next attempt:
the Oracle response is a valid error-free mapping with all four required
keys, the HTML save and the render succeed, and the page count is above 1. -/
def attempt_continues (e : AttemptEnv) : Bool :=
  match e.oracle with
  | .jsonObj d false =>
    decide (missing_keys d = []) && e.html_save_ok && e.pdf_gen_ok && decide (1 < e.page_count)
  | _ => false

/-- The failure status (if any) that an attempt's Oracle response forces:
an error mapping or a non-mapping or a mapping with missing required keys
each halt the loop with the corresponding tagged status. -/
def oracle_fail_status (e : AttemptEnv) (attempt : Nat) : Option String :=
  match e.oracle with
  | .errorObj _ _ _ => some (api_err_status attempt)
  | .jsonObj _ true => some (api_err_status attempt)
  | .textRet _ => some (invalid_resp_status attempt)
  | .jsonObj d false =>
    if missing_keys d = [] then none else some (missing_keys_status attempt)

/-- Any status forced by an Oracle failure differs from `NEEDS_EDIT`. -/
theorem oracle_fail_status_ne_needs_edit (e : AttemptEnv) (a : Nat) (s : String)
    (h : oracle_fail_status e a = some s) : s ≠ STATUS_NEEDS_EDIT := by
  obtain ⟨hA, hI, hM⟩ := oracle_failure_status_heads a
  cases ho : e.oracle with
  | errorObj m p r =>
    simp only [oracle_fail_status, ho, Option.some.injEq] at h
    exact h ▸ ne_needs_edit_of_head_E _ hA
  | textRet t =>
    simp only [oracle_fail_status, ho, Option.some.injEq] at h
    exact h ▸ ne_needs_edit_of_head_E _ hI
  | jsonObj d he =>
    cases he with
    | true =>
      simp only [oracle_fail_status, ho, Option.some.injEq] at h
      exact h ▸ ne_needs_edit_of_head_E _ hA
    | false =>
      simp only [oracle_fail_status, ho] at h
      by_cases hm : missing_keys d = []
      · rw [if_pos hm] at h
        exact absurd h (by simp)
      · rw [if_neg hm] at h
        rw [Option.some.injEq] at h
        exact h ▸ ne_needs_edit_of_head_E _ hM

/-- If attempts `attempt .. attempt + k - 1` all continue and the Oracle of
attempt `attempt + k` fails, the loop halts there with the forced status,
having made exactly `k + 1` Oracle calls and `k` render calls beyond the
incoming state. -/
theorem run_attempts_halts_on_oracle_failure (env : Nat → AttemptEnv) :
    ∀ (k attempt gas : Nat) (acc : LoopAcc) (s : String),
      1 ≤ attempt →
      (2 ≤ attempt → acc.latest_has_error = false) →
      k + 1 ≤ gas →
      (∀ i, attempt ≤ i → i < attempt + k → attempt_continues (env i) = true) →
      oracle_fail_status (env (attempt + k)) (attempt + k) = some s →
      (run_attempts env attempt gas acc).final_status = s
      ∧ (run_attempts env attempt gas acc).oracle_calls = acc.oracle_calls + (k + 1)
      ∧ (run_attempts env attempt gas acc).render_calls = acc.render_calls + k := by
  intro k
  induction k with
  | zero =>
    intro attempt gas acc s h1 h2 hg hcont hfail
    obtain ⟨g, rfl⟩ : ∃ g, gas = g + 1 := ⟨gas - 1, by omega⟩
    rw [Nat.add_zero] at hfail
    have hpre : ¬(2 ≤ attempt ∧ acc.latest_has_error = true) := by
      rintro ⟨ha, hb⟩
      rw [h2 ha] at hb
      exact Bool.false_ne_true hb
    simp only [run_attempts, if_neg hpre]
    cases ho : (env attempt).oracle with
    | errorObj m p r =>
      simp only [oracle_fail_status, ho, Option.some.injEq] at hfail
      subst hfail
      simp [ho]
    | textRet t =>
      simp only [oracle_fail_status, ho, Option.some.injEq] at hfail
      subst hfail
      simp [ho]
    | jsonObj d he =>
      cases he with
      | true =>
        simp only [oracle_fail_status, ho, Option.some.injEq] at hfail
        subst hfail
        simp [ho]
      | false =>
        simp only [oracle_fail_status, ho] at hfail
        by_cases hm : missing_keys d = []
        · rw [if_pos hm] at hfail
          exact absurd hfail (by simp)
        · rw [if_neg hm] at hfail
          rw [Option.some.injEq] at hfail
          subst hfail
          simp [ho, hm]
  | succ k ih =>
    intro attempt gas acc s h1 h2 hg hcont hfail
    obtain ⟨g, rfl⟩ : ∃ g, gas = g + 1 := ⟨gas - 1, by omega⟩
    have hc := hcont attempt (le_refl _) (by omega)
    have hpre : ¬(2 ≤ attempt ∧ acc.latest_has_error = true) := by
      rintro ⟨ha, hb⟩
      rw [h2 ha] at hb
      exact Bool.false_ne_true hb
    cases ho : (env attempt).oracle with
    | errorObj m p r => simp [attempt_continues, ho] at hc
    | textRet t => simp [attempt_continues, ho] at hc
    | jsonObj d he =>
      cases he with
      | true => simp [attempt_continues, ho] at hc
      | false =>
        simp only [attempt_continues, ho, Bool.and_eq_true, decide_eq_true_eq] at hc
        obtain ⟨⟨⟨hm, hsave⟩, hpdf⟩, hpage⟩ := hc
        have hne1 : ¬((env attempt).page_count = 1) := by omega
        simp only [run_attempts, if_neg hpre, ho]
        rw [if_neg (by simp [hm]), if_neg (by simp [hsave]), if_neg (by simp [hpdf]),
          if_neg hne1, if_pos hpage]
        have hfail' : oracle_fail_status (env ((attempt + 1) + k)) ((attempt + 1) + k)
            = some s := by
          have : (attempt + 1) + k = attempt + (k + 1) := by omega
          rw [this]
          exact hfail
        have hres := ih (attempt + 1) g
          { acc with
            final_status := STATUS_NEEDS_EDIT
            latest_has_error := false
            page_count := (env attempt).page_count
            oracle_calls := acc.oracle_calls + 1
            render_calls := acc.render_calls + 1 }
          s (by omega) (fun _ => rfl) (by omega)
          (fun i hi1 hi2 => hcont i (by omega) (by omega)) hfail'
        refine ⟨hres.1, ?_, ?_⟩
        · rw [hres.2.1]
          show acc.oracle_calls + 1 + (k + 1) = acc.oracle_calls + (k + 1 + 1)
          omega
        · rw [hres.2.2]
          show acc.render_calls + 1 + k = acc.render_calls + (k + 1)
          omega

/-- C4: if the Oracle call of attempt `k + 1` returns an error mapping, a
non-mapping, or a mapping missing required fields (after attempts `1..k`
all continued the ladder), the loop halts immediately with the failure
status tagged with that attempt number: exactly `k + 1` Oracle calls and
`k` render calls are made and the post-loop fallback never runs.  With
`k = 0` this is the claim's scenario: an Oracle failure on attempt 1 means
condensation attempts 2 and 3 are never invoked and the Oracle call count
is exactly 1. -/
theorem c4_oracle_failure_halts_ladder (env : Nat → AttemptEnv) (fb : FallbackEnv)
    (max_attempts k : Nat) (s : String)
    (hk : k + 1 ≤ max_attempts)
    (hcont : ∀ i, 1 ≤ i → i < 1 + k → attempt_continues (env i) = true)
    (hfail : oracle_fail_status (env (1 + k)) (1 + k) = some s) :
    (iterative_tailoring_and_pdf_gen env fb max_attempts).final_status = s
    ∧ (iterative_tailoring_and_pdf_gen env fb max_attempts).oracle_calls = k + 1
    ∧ (iterative_tailoring_and_pdf_gen env fb max_attempts).render_calls = k
    ∧ (iterative_tailoring_and_pdf_gen env fb max_attempts).fallback_runs = 0 := by
  have h := run_attempts_halts_on_oracle_failure env k 1 max_attempts initLoopAcc s
    (le_refl 1) (fun hcontra => absurd hcontra (by omega)) hk hcont hfail
  have hne : s ≠ STATUS_NEEDS_EDIT := oracle_fail_status_ne_needs_edit _ _ _ hfail
  have hcond : ¬((run_attempts env 1 max_attempts initLoopAcc).final_status
      = STATUS_NEEDS_EDIT) := by
    rw [h.1]
    exact hne
  unfold iterative_tailoring_and_pdf_gen apply_final_edit
  rw [if_neg hcond]
  refine ⟨h.1, ?_, ?_, rfl⟩
  · rw [h.2.1]
    simp [initLoopAcc]
  · rw [h.2.2]
    simp [initLoopAcc]

/-- Concrete attempt environment for the C4 witness: the Oracle errors on
the very first call. -/
def c4wEnv : Nat → AttemptEnv := fun _ =>
  ⟨.errorObj "ERROR: Prompt blocked (SAFETY)" none none, true, true, 2⟩

/-- Concrete fallback environment for the C4 witness. -/
def c4wFb : FallbackEnv := ⟨true, [["e1"]], false, true, 1⟩

/-- C4 witness: an Oracle failure on attempt 1 halts the run with the
attempt-1-tagged API-error status, exactly one Oracle call, no render and
no fallback. -/
theorem c4_oracle_failure_halts_ladder_witness :
    (iterative_tailoring_and_pdf_gen c4wEnv c4wFb 3).final_status = api_err_status 1
    ∧ (iterative_tailoring_and_pdf_gen c4wEnv c4wFb 3).oracle_calls = 1
    ∧ (iterative_tailoring_and_pdf_gen c4wEnv c4wFb 3).render_calls = 0
    ∧ (iterative_tailoring_and_pdf_gen c4wEnv c4wFb 3).fallback_runs = 0 :=
  c4_oracle_failure_halts_ladder c4wEnv c4wFb 3 0 (api_err_status 1)
    (by omega) (fun i h1 h2 => absurd (Nat.lt_of_lt_of_le h2 h1) (Nat.lt_irrefl i)) rfl

/-- When no bullet was removed, the education lists are unchanged. -/
theorem remove_last_edu_bullet_keep (limit : Nat) :
    ∀ uls, (remove_last_edu_bullet limit uls).2 = false →
      (remove_last_edu_bullet limit uls).1 = uls := by
  induction limit with
  | zero =>
    intro uls _
    cases uls <;> rfl
  | succ n ih =>
    intro uls h
    cases uls with
    | nil => rfl
    | cons ul rest =>
      by_cases hu : ul = []
      · subst hu
        have e : remove_last_edu_bullet (n + 1) ([] :: rest)
            = ([] :: (remove_last_edu_bullet n rest).1, (remove_last_edu_bullet n rest).2) := by
          simp [remove_last_edu_bullet]
        rw [e] at h ⊢
        exact congrArg (List.cons []) (ih rest h)
      · have e : remove_last_edu_bullet (n + 1) (ul :: rest) = (ul.dropLast :: rest, true) := by
          simp [remove_last_edu_bullet, hu]
        rw [e] at h
        exact absurd h (by simp)


/-- C3 (amended): the post-loop fallback block runs exactly once when the
attempt ladder is exhausted with the status still at Needs Manual Edit,
and never otherwise.  When it runs without an exception and the Education
heading is present, it applies the single deterministic non-AI edit that
drops the LAST bullet of the FIRST education bullet list having any
bullets (among the first five lists after the Education heading); it
re-renders exactly once when a bullet was removed; if the re-render yields
page count 1 the final status is the Success status, and if it still
yields more than one page the final status remains Needs Manual Edit. -/
theorem c3_post_loop_fallback (env : Nat → AttemptEnv) (fb : FallbackEnv) (max_attempts : Nat) :
    ((iterative_tailoring_and_pdf_gen env fb max_attempts).fallback_runs
      = if (run_attempts env 1 max_attempts initLoopAcc).final_status = STATUS_NEEDS_EDIT
        then 1 else 0)
    ∧ (iterative_tailoring_and_pdf_gen env fb max_attempts).fallback_runs ≤ 1
    ∧ ((run_attempts env 1 max_attempts initLoopAcc).final_status = STATUS_NEEDS_EDIT →
        fb.exc_raised = false → fb.edu_heading_found = true →
        (iterative_tailoring_and_pdf_gen env fb max_attempts).edu_lists_after
          = (remove_last_edu_bullet 5 fb.education_lists).1
        ∧ (iterative_tailoring_and_pdf_gen env fb max_attempts).fallback_renders
          = (if (remove_last_edu_bullet 5 fb.education_lists).2 = true then 1 else 0)
        ∧ ((remove_last_edu_bullet 5 fb.education_lists).2 = true → fb.pdf_gen_ok = true →
            (fb.page_count = 1 →
              (iterative_tailoring_and_pdf_gen env fb max_attempts).final_status
                = STATUS_SUCCESS)
            ∧ (1 < fb.page_count →
              (iterative_tailoring_and_pdf_gen env fb max_attempts).final_status
                = STATUS_NEEDS_EDIT))) := by
  unfold iterative_tailoring_and_pdf_gen apply_final_edit
  by_cases h : (run_attempts env 1 max_attempts initLoopAcc).final_status = STATUS_NEEDS_EDIT
  · rw [if_pos h]
    by_cases hexc : fb.exc_raised = true
    · rw [if_pos hexc]
      refine ⟨by rw [if_pos h], by simp, ?_⟩
      intro _ h2 _
      rw [hexc] at h2
      exact absurd h2 (by decide)
    · rw [if_neg hexc]
      by_cases hrem : (final_edit_removal fb).2 = true
      · rw [if_pos hrem]
        by_cases hpdf : fb.pdf_gen_ok = true
        · rw [if_pos hpdf]
          by_cases hpc : fb.page_count = 1
          · rw [if_pos hpc]
            refine ⟨by rw [if_pos h], by simp, ?_⟩
            intro _ _ hedu
            have hr : final_edit_removal fb = remove_last_edu_bullet 5 fb.education_lists := by
              unfold final_edit_removal
              rw [if_pos hedu]
            rw [hr] at hrem
            refine ⟨?_, ?_, ?_⟩
            · show (final_edit_removal fb).1 = _
              rw [hr]
            · rw [if_pos hrem]
            · intro _ _
              exact ⟨fun _ => rfl, fun hgt => absurd hgt (by omega)⟩
          · rw [if_neg hpc]
            refine ⟨by rw [if_pos h], by simp, ?_⟩
            intro _ _ hedu
            have hr : final_edit_removal fb = remove_last_edu_bullet 5 fb.education_lists := by
              unfold final_edit_removal
              rw [if_pos hedu]
            rw [hr] at hrem
            refine ⟨?_, ?_, ?_⟩
            · show (final_edit_removal fb).1 = _
              rw [hr]
            · rw [if_pos hrem]
            · intro _ _
              exact ⟨fun h1 => absurd h1 hpc, fun _ => h⟩
        · rw [if_neg hpdf]
          refine ⟨by rw [if_pos h], by simp, ?_⟩
          intro _ _ hedu
          have hr : final_edit_removal fb = remove_last_edu_bullet 5 fb.education_lists := by
            unfold final_edit_removal
            rw [if_pos hedu]
          rw [hr] at hrem
          refine ⟨?_, ?_, ?_⟩
          · show (final_edit_removal fb).1 = _
            rw [hr]
          · rw [if_pos hrem]
          · intro _ hpdf2
            exact absurd hpdf2 hpdf
      · rw [if_neg hrem]
        refine ⟨by rw [if_pos h], by simp, ?_⟩
        intro _ _ hedu
        have hr : final_edit_removal fb = remove_last_edu_bullet 5 fb.education_lists := by
          unfold final_edit_removal
          rw [if_pos hedu]
        rw [hr] at hrem
        have hrem' : (remove_last_edu_bullet 5 fb.education_lists).2 = false :=
          Bool.not_eq_true _ ▸ eq_false_of_ne_true hrem
        refine ⟨?_, ?_, ?_⟩
        · show fb.education_lists = _
          exact (remove_last_edu_bullet_keep 5 fb.education_lists hrem').symm
        · rw [if_neg hrem]
        · intro hremT _
          exact absurd hremT hrem
  · rw [if_neg h]
    exact ⟨by rw [if_neg h], by simp, fun h1 => absurd h1 h⟩

/-- Concrete attempt environment for C3: every attempt returns a valid
object whose render measures 2 pages, so the ladder exhausts at
Needs Manual Edit. -/
def c3wEnv : Nat → AttemptEnv := fun _ =>
  ⟨.jsonObj ⟨some "S", some "Yardi", some ["b"], some []⟩ false, true, true, 2⟩

/-- Concrete fallback environment for the C3 witness: one education list
with two bullets; the post-loop re-render reaches 1 page. -/
def c3wFb : FallbackEnv := ⟨true, [["e1", "e2"]], false, true, 1⟩

/-- C3 witness: after three 2-page attempts the fallback runs exactly
once, drops the last education bullet, re-renders once, and the re-render
reaching 1 page makes the final status Success. -/
theorem c3_post_loop_fallback_witness :
    (iterative_tailoring_and_pdf_gen c3wEnv c3wFb 3).fallback_runs = 1
    ∧ (iterative_tailoring_and_pdf_gen c3wEnv c3wFb 3).final_status = STATUS_SUCCESS
    ∧ (iterative_tailoring_and_pdf_gen c3wEnv c3wFb 3).edu_lists_after = [["e1"]]
    ∧ (iterative_tailoring_and_pdf_gen c3wEnv c3wFb 3).fallback_renders = 1 := by
  have h := c3_post_loop_fallback c3wEnv c3wFb 3
  have hloop : (run_attempts c3wEnv 1 3 initLoopAcc).final_status = STATUS_NEEDS_EDIT := by
    decide
  have h3 := h.2.2 hloop rfl rfl
  refine ⟨?_, ?_, ?_, ?_⟩
  · rw [h.1, if_pos hloop]
  · exact (h3.2.2 (by decide) rfl).1 rfl
  · rw [h3.1]
    decide
  · rw [h3.2.1]
    decide

/-- Concrete fallback environment for the C3 counterexample: TWO education
entries, each with one bullet. -/
def c3ceFb : FallbackEnv := ⟨true, [["a"], ["b"]], false, true, 1⟩

/-- C3 counterexample: with two education bullet lists the fallback edit
empties the FIRST list (the code takes the first non-empty `ul` after the
Education heading), not the LAST education entry as the claim states: the
result is `[[], ["b"]]`, not `[["a"], []]`. -/
theorem c3_last_entry_refuted :
    (iterative_tailoring_and_pdf_gen c3wEnv c3ceFb 3).fallback_runs = 1
    ∧ (iterative_tailoring_and_pdf_gen c3wEnv c3ceFb 3).edu_lists_after = [[], ["b"]]
    ∧ (iterative_tailoring_and_pdf_gen c3wEnv c3ceFb 3).edu_lists_after ≠ [["a"], []] := by
  refine ⟨by decide, by decide, by decide⟩

/-! ### Job Store Controller gating
(process_resume_tailoring, phase4_tailoring.py lines 299-349) -/

/-- The fields of one job row that the phase-4 controller reads:
`Status` (a string), `Retailoring Attempts` after the
`fillna(0).astype(int)` of line 316, and `Total Match Score`
(`pd.NA` = `none`). -/
structure JobRecord where
  status : String
  retailoring_attempts : Nat
  total_match_score : Option ℚ
deriving DecidableEq

/-- Phase-4 configuration: `score_threshold`, `max_retailoring_attempts`
and the `retry_failed_phase4` workflow flag. -/
structure Phase4Config where
  score_threshold : ℚ
  max_retailoring_attempts : Nat
  retry_failed : Bool
deriving DecidableEq

/-- The `base_error_statuses_to_retry` list of line 325. -/
def phase4_retry_base_statuses : List String :=
  [STATUS_FAILED_TAILORING, STATUS_FAILED_HTML_EDIT, STATUS_FAILED_PDF_GEN,
    STATUS_FAILED_FILE_ACCESS, STATUS_UNKNOWN_ERROR, STATUS_NEEDS_EDIT,
    STATUS_NEEDS_RETAILORING]

/-- `ready_mask` of line 323: `Status == AI_ANALYZED`. -/
def ready_mask (r : JobRecord) : Bool :=
  decide (r.status = STATUS_AI_ANALYZED)

/-- `score_mask` of line 323: `TotalMatchScore.fillna(-1) >= score_threshold`. -/
def score_mask (r : JobRecord) (cfg : Phase4Config) : Bool :=
  decide (cfg.score_threshold ≤ r.total_match_score.getD (-1))

/-- `retry_eligible_mask` of lines 324-328: retry enabled and the status
starts with one of the retryable base statuses. -/
def retry_eligible_mask (r : JobRecord) (cfg : Phase4Config) : Bool :=
  cfg.retry_failed && phase4_retry_base_statuses.any (fun base => strStarts r.status base)

/-- `needs_retailor_mask` of line 330. -/
def needs_retailor_mask (r : JobRecord) : Bool :=
  decide (r.status = STATUS_NEEDS_RETAILORING)

/-- `attempts_exceeded_mask` of line 330:
`Retailoring Attempts >= max_retailoring_attempts`. -/
def attempts_exceeded_mask (r : JobRecord) (cfg : Phase4Config) : Bool :=
  decide (cfg.max_retailoring_attempts ≤ r.retailoring_attempts)

/-- `eligible_mask` of lines 329-331: the score gate, readiness or retry
eligibility, and the exclusion of NeedsRetailoring rows whose counter has
reached the ceiling. -/
def eligible_mask (r : JobRecord) (cfg : Phase4Config) : Bool :=
  score_mask r cfg && (ready_mask r || retry_eligible_mask r cfg)
    && !(needs_retailor_mask r && attempts_exceeded_mask r cfg)

/-- Status assigned to rows not processed this pass (lines 333-335): ready
rows below the score threshold are marked skipped-low-score, and
NeedsRetailoring rows at/over the ceiling are marked with the terminal
max-retailoring status. -/
def phase4_gate_status (r : JobRecord) (cfg : Phase4Config) : String :=
  let s1 := if ready_mask r && !score_mask r cfg then STATUS_SKIPPED_LOW_SCORE else r.status
  if needs_retailor_mask r && attempts_exceeded_mask r cfg then STATUS_MAX_RETAILORING else s1

/-- The `Retailoring Attempts` value after one controller pass over the
record (line 349): processed re-tailoring rows (eligible and currently in
NeedsRetailoring) are incremented by one; every other row keeps its
counter. -/
def phase4_new_attempts (r : JobRecord) (cfg : Phase4Config) : Nat :=
  if eligible_mask r cfg && needs_retailor_mask r then r.retailoring_attempts + 1
  else r.retailoring_attempts

/-- C9: the retailoring counter never decreases across a Tailoring Engine
pass — it is either kept or incremented by exactly one — and the ceiling
is checked before re-invoking tailoring: a NeedsRetailoring record whose
counter has reached `max_retailoring_attempts` is not eligible, keeps its
counter, and is moved to the terminal max-retailoring status. -/
theorem c9_retailoring_counter_monotone (r : JobRecord) (cfg : Phase4Config) :
    r.retailoring_attempts ≤ phase4_new_attempts r cfg
    ∧ (phase4_new_attempts r cfg = r.retailoring_attempts
        ∨ phase4_new_attempts r cfg = r.retailoring_attempts + 1)
    ∧ (r.status = STATUS_NEEDS_RETAILORING →
        cfg.max_retailoring_attempts ≤ r.retailoring_attempts →
        eligible_mask r cfg = false
        ∧ phase4_new_attempts r cfg = r.retailoring_attempts
        ∧ phase4_gate_status r cfg = STATUS_MAX_RETAILORING) := by
  refine ⟨?_, ?_, ?_⟩
  · unfold phase4_new_attempts
    split_ifs <;> omega
  · unfold phase4_new_attempts
    split_ifs with h
    · exact Or.inr rfl
    · exact Or.inl rfl
  · intro h1 h2
    have hn : needs_retailor_mask r = true := by simp [needs_retailor_mask, h1]
    have he : attempts_exceeded_mask r cfg = true := by simp [attempts_exceeded_mask, h2]
    have helig : eligible_mask r cfg = false := by
      unfold eligible_mask
      rw [hn, he]
      simp
    refine ⟨helig, ?_, ?_⟩
    · unfold phase4_new_attempts
      rw [helig]
      simp
    · unfold phase4_gate_status
      rw [hn, he]
      simp

/-- C9 witness: a NeedsRetailoring record with counter 2 under ceiling 2
is excluded from tailoring, keeps its counter, and is marked with the
terminal max-retailoring status. -/
theorem c9_retailoring_counter_monotone_witness :
    eligible_mask ⟨STATUS_NEEDS_RETAILORING, 2, some 3⟩ ⟨5 / 2, 2, true⟩ = false
    ∧ phase4_new_attempts ⟨STATUS_NEEDS_RETAILORING, 2, some 3⟩ ⟨5 / 2, 2, true⟩ = 2
    ∧ phase4_gate_status ⟨STATUS_NEEDS_RETAILORING, 2, some 3⟩ ⟨5 / 2, 2, true⟩
      = STATUS_MAX_RETAILORING :=
  (c9_retailoring_counter_monotone ⟨STATUS_NEEDS_RETAILORING, 2, some 3⟩ ⟨5 / 2, 2, true⟩).2.2
    rfl (Nat.le_refl 2)
